import Mathlib

/-!
Verification of the V2T speech-to-text desktop application
(src/speech_to_text_app.py) against its natural-language specification.

The Python program is shallowly embedded below: the preference store
(`load_settings` / `save_settings`), the application state mutated by the
UI handlers (`start_recording`, `stop_recording`, `copy_text`, `add_text`,
`show_settings`), the recording worker loop (`record_iter`,
`record_worker`), and the settings dialog (`SettingsDialog`).
External effects (file system, microphone, recognizer, clipboard, Qt
signals) are made explicit: fallible externals become parameters or
event scripts, and each emitted Qt signal is both applied to the state
(modelling the connected slot) and logged.
-/

/-- The preferences record.  In the Python code this is the dict
`self.settings`; after `load_settings` it always carries the three keys
`language`, `auto_copy`, `always_on_top`, which the record type makes
structural. -/
structure Settings where
  language : String
  auto_copy : Bool
  always_on_top : Bool
deriving DecidableEq, Repr

/-- The `defaults` dict of `SpeechApp.load_settings` (lines 43-47). -/
def defaults : Settings :=
  { language := "en-US", auto_copy := true, always_on_top := false }

/-- A successfully parsed settings JSON document: any subset of the three
keys may be present (`json.load` result, restricted to the recognised
keys; unrecognised keys cannot affect the three modelled fields). -/
structure SavedSettings where
  language : Option String
  auto_copy : Option Bool
  always_on_top : Option Bool
deriving DecidableEq, Repr

/-- The observable state of the settings file as `load_settings` sees it:
absent (`os.path.exists` false), unreadable (open/`json.load` raises, or
the parsed value is not mergeable), or parsed content. -/
inductive SettingsFile where
  | absent
  | unreadable
  | content (saved : SavedSettings)
deriving DecidableEq, Repr

/-- Embeds `SpeechApp.load_settings` (lines 41-57): a missing file and any
read/parse failure both fall through to `defaults`; a parsed document is
merged over the defaults by `{**defaults, **saved}`, so a present key
overrides and an absent key keeps the default.  The function is total:
the bare `except: pass` means no failure escapes to the caller. -/
def load_settings : SettingsFile → Settings
  | .absent => defaults
  | .unreadable => defaults
  | .content saved =>
      { language := saved.language.getD defaults.language,
        auto_copy := saved.auto_copy.getD defaults.auto_copy,
        always_on_top := saved.always_on_top.getD defaults.always_on_top }

/-- The JSON document `SpeechApp.save_settings` (lines 59-68) writes on
success: `json.dump(self.settings, f)` serialises all three keys. -/
def save_settings_doc (s : Settings) : SavedSettings :=
  { language := some s.language,
    auto_copy := some s.auto_copy,
    always_on_top := some s.always_on_top }

/-- The application state touched by the handlers we model.
`status` is the text of `status_label` (the last status message applied
via `status_signal` → `update_status`); `transcript` is the plain text of
`text_area`; `clipboard` is the system clipboard (`none` = never set);
`microphone` is whether `self.microphone` is non-`None`;
`on_top_applied` is whether `Qt.WindowStaysOnTopHint` is currently set. -/
structure AppState where
  is_recording : Bool
  microphone : Bool
  settings : Settings
  status : String
  transcript : String
  clipboard : Option String
  stop_enabled : Bool
  on_top_applied : Bool
deriving DecidableEq, Repr

/-- A Qt signal emitted by the worker thread (lines 16-17): `status_signal`
carries a status message, `text_signal` a recognised phrase. -/
inductive Signal where
  | status (msg : String)
  | text (t : String)
deriving DecidableEq, Repr

/-- Python `str.strip()` with no argument: remove leading and trailing
whitespace.  Defined structurally over the character list so that it
reduces in the kernel (`String.trim` does not). -/
def pyStrip (s : String) : String :=
  ⟨((s.data.dropWhile Char.isWhitespace).reverse.dropWhile Char.isWhitespace).reverse⟩

/-- Embeds `SpeechApp.copy_text` (lines 406-413): copies only when the stripped
text is non-empty (Python truthiness of `text.strip()`); otherwise the
clipboard is left untouched and a "no text" status is emitted. -/
def copy_text (st : AppState) : AppState :=
  let text := st.transcript
  if pyStrip text ≠ "" then
    { st with clipboard := some text, status := "📋 Copied!" }
  else
    { st with status := "❌ No text to copy" }

/-- Embeds `SpeechApp.add_text` (lines 419-428): if the current text is non-empty
(Python truthiness of `current`), the new phrase is joined with a single
space and the result is stripped; otherwise the text becomes the phrase. -/
def add_text (st : AppState) (text : String) : AppState :=
  let current := st.transcript
  let new_text := if current ≠ "" then pyStrip (current ++ " " ++ text) else text
  { st with transcript := new_text }

/-- Embeds `SpeechApp.start_recording` (lines 314-340).  Returns the new state and
whether a worker thread was started.  With no microphone it emits an error
status and returns immediately. -/
def start_recording (st : AppState) : AppState × Bool :=
  if st.microphone = false then
    ({ st with status := "❌ Microphone not available" }, false)
  else
    ({ st with is_recording := true, stop_enabled := true,
               status := "🎙️ Recording... Speak now!" }, true)

/-- Embeds `SpeechApp.stop_recording` (lines 342-361): clears the recording flag,
disables the stop button and emits the stopped status. -/
def stop_recording (st : AppState) : AppState :=
  { st with is_recording := false, stop_enabled := false,
            status := "✅ Recording stopped" }

/-- Outcome of one `recognize_google` call (line 375): text, an
`sr.UnknownValueError` (unintelligible speech), or any other exception. -/
inductive RecogResult where
  | ok (text : String)
  | unknownValue
  | failure (msg : String)
deriving DecidableEq, Repr

/-- Outcome of one `recognizer.listen` call (line 368): an
`sr.WaitTimeoutError`, or captured audio whose recognition then yields a
`RecogResult`. -/
inductive ListenOutcome where
  | timeout
  | audio (r : RecogResult)
deriving DecidableEq, Repr

/-- One scripted iteration of the worker loop: `stopRequested` models the
UI thread flipping `is_recording` to false while the worker is blocked in
`listen` (observed at line 370); `outcome` is what the external
listen/recognize calls produce. -/
structure IterEvent where
  stopRequested : Bool
  outcome : ListenOutcome
deriving DecidableEq, Repr

/-- One iteration of the `while self.is_recording` body of
`SpeechApp.record_worker` (lines 365-396), entered with the loop guard
already true.  Returns the state after the iteration (signal slots applied
in order), the list of signals emitted, and whether the loop continues
(`true` = `continue` / fall through, `false` = `break`).  The deferred
`QTimer.singleShot(100, self.copy_text)` on the auto-copy path is applied
to the state right after the text, the closest sequential reading. -/
def record_iter (st0 : AppState) (ev : IterEvent) : AppState × List Signal × Bool :=
  let st := if ev.stopRequested then { st0 with is_recording := false } else st0
  match ev.outcome with
  | .timeout =>
      if st.is_recording then
        ({ st with status := "🎙️ Listening..." }, [.status "🎙️ Listening..."], true)
      else
        (st, [], true)
  | .audio r =>
      if st.is_recording = false then
        (st, [], false)
      else
        let st1 := { st with status := "🔄 Processing..." }
        match r with
        | .ok text =>
            if pyStrip text ≠ "" then
              let st2 := add_text st1 text
              let st3 := if st2.settings.auto_copy then copy_text st2 else st2
              if st3.is_recording then
                ({ st3 with status := "🎙️ Continue speaking..." },
                 [.status "🔄 Processing...", .text text,
                  .status "🎙️ Continue speaking..."], true)
              else
                (st3, [.status "🔄 Processing...", .text text], true)
            else
              if st1.is_recording then
                ({ st1 with status := "🎙️ Continue speaking..." },
                 [.status "🔄 Processing...", .status "🎙️ Continue speaking..."], true)
              else
                (st1, [.status "🔄 Processing..."], true)
        | .unknownValue =>
            if st1.is_recording then
              ({ st1 with status := "🎙️ Didn\u0027t catch that..." },
               [.status "🔄 Processing...", .status "🎙️ Didn\u0027t catch that..."], true)
            else
              (st1, [.status "🔄 Processing..."], true)
        | .failure m =>
            ({ st1 with status := "❌ Error: " ++ m },
             [.status "🔄 Processing...", .status ("❌ Error: " ++ m)], false)

/-- The whole worker run over a finite event script: the loop keeps
iterating while `is_recording` holds and events remain; on `break`, loop
exit, or script exhaustion it performs the final
`QTimer.singleShot(0, self.stop_recording)` (line 399). -/
def record_worker : AppState → List IterEvent → AppState × List Signal
  | st, [] => (stop_recording st, [.status "✅ Recording stopped"])
  | st, ev :: rest =>
      if st.is_recording then
        match record_iter st ev with
        | (st1, sigs, cont) =>
            if cont then
              match record_worker st1 rest with
              | (st2, sigs2) => (st2, sigs ++ sigs2)
            else
              (stop_recording st1, sigs ++ [.status "✅ Recording stopped"])
      else
        (stop_recording st, [.status "✅ Recording stopped"])

/-- Error-class status messages in this program all start with "❌"
(microphone unavailable, recognition error, copy refusal, save failure);
informational statuses do not. -/
def isErrorStatus (s : String) : Bool := "❌".data.isPrefixOf s.data

/-- Embeds `SpeechApp.show_settings` (lines 436-462).  `accepted` is `some newS`
when the modal dialog returned `QDialog.Accepted` with `get_settings`
value `newS` (which always carries all three keys, so
`self.settings.update(new_settings)` replaces all three fields);
`saveOk` is the return value of `save_settings`, i.e. whether the file
write succeeded.  The always-on-top window flag is re-applied only inside
the successful-save branch and only when the flag changed. -/
def show_settings (st : AppState) (accepted : Option Settings) (saveOk : Bool) :
    AppState :=
  match accepted with
  | none => st
  | some newS =>
      let old_on_top := st.settings.always_on_top
      let new_on_top := newS.always_on_top
      let st1 := { st with settings := newS }
      if saveOk then
        let st2 := { st1 with status := "⚙️ Settings saved!" }
        if old_on_top ≠ new_on_top then
          { st2 with on_top_applied := new_on_top }
        else
          st2
      else
        { st1 with status := "❌ Settings save failed" }

/-- Embeds `SettingsDialog` (lines 488-581): it copies the settings it is opened
with and exposes two checkboxes (auto-copy, always-on-top); there is no
language control. -/
structure SettingsDialog where
  settings : Settings
  auto_copy_cb : Bool
  always_on_top_cb : Bool
deriving DecidableEq, Repr

/-- Embeds `SettingsDialog.__init__` plus `init_ui` (lines 491-550): the
checkboxes are initialised from the copied settings. -/
def SettingsDialog.opened (s : Settings) : SettingsDialog :=
  { settings := s, auto_copy_cb := s.auto_copy, always_on_top_cb := s.always_on_top }

/-- Embeds `SettingsDialog.get_settings` (lines 575-581): checkbox values, with
the language taken unchanged from the copied settings. -/
def SettingsDialog.get_settings (d : SettingsDialog) : Settings :=
  { language := d.settings.language,
    auto_copy := d.auto_copy_cb,
    always_on_top := d.always_on_top_cb }

/-- Outcome of an accepted dialog that was opened with `s` and whose
checkboxes ended at `cbAuto` / `cbTop` when Save was clicked. -/
def dialog_result (s : Settings) (cbAuto cbTop : Bool) : Settings :=
  SettingsDialog.get_settings
    { SettingsDialog.opened s with auto_copy_cb := cbAuto, always_on_top_cb := cbTop }

/-- A concrete idle application state used by witnesses and
counterexamples. -/
def st0 : AppState :=
  { is_recording := false, microphone := true, settings := defaults,
    status := "Ready to record", transcript := "", clipboard := none,
    stop_enabled := false, on_top_applied := false }

/-- Claim C1: for every state of the settings file, if the file is absent
or reading/parsing it fails, `load_settings` returns exactly the default
triple (language "en-US", auto_copy true, always_on_top false).  The
"never raises" part of the claim is reflected by `load_settings` being a
total function on `SettingsFile`: the bare `except: pass` in the source
leaves no failure path that escapes to the caller. -/
theorem C1_load_settings_defaults_on_missing_or_unreadable :
    load_settings .absent =
      { language := "en-US", auto_copy := true, always_on_top := false } ∧
    load_settings .unreadable =
      { language := "en-US", auto_copy := true, always_on_top := false } :=
  ⟨rfl, rfl⟩

/-- Claim C2: for every successfully parsed settings file containing a
subset of the keys, `load_settings` returns the saved values merged over
the defaults — a present key wins, a missing key falls back — so the
result always carries all three fields; in particular a file containing
only auto_copy = false loads as (language "en-US", auto_copy false,
always_on_top false). -/
theorem C2_load_settings_merges_saved_over_defaults (saved : SavedSettings) :
    ((load_settings (.content saved)).language = saved.language.getD "en-US" ∧
     (load_settings (.content saved)).auto_copy = saved.auto_copy.getD true ∧
     (load_settings (.content saved)).always_on_top = saved.always_on_top.getD false) ∧
    load_settings
        (.content { language := none, auto_copy := some false, always_on_top := none }) =
      { language := "en-US", auto_copy := false, always_on_top := false } :=
  ⟨⟨rfl, rfl, rfl⟩, rfl⟩

/-- Claim C3: for every valid preferences value P, saving P (which writes
the JSON document `save_settings_doc P` with all three keys) and then
loading that document back yields P again. -/
theorem C3_load_after_save_roundtrip (P : Settings) :
    load_settings (.content (save_settings_doc P)) = P := rfl

/-- Claim C4: while the loop is in the Recording state, an
audio-acquisition timeout or an unrecognised phrase causes only an
informational status update and the loop keeps iterating with
`is_recording` still true; any other exception from the recognition call
causes an error status, the iteration breaks, and the final worker
`stop_recording` leaves the system Idle regardless of any remaining
scripted events. -/
theorem C4_record_worker_transient_continue_fatal_idle
    (st : AppState) (ev : IterEvent)
    (hrec : st.is_recording = true) (hstop : ev.stopRequested = false) :
    (ev.outcome = .timeout →
        (record_iter st ev).2.2 = true ∧
        (record_iter st ev).1.is_recording = true ∧
        (record_iter st ev).1.status = "🎙️ Listening..." ∧
        isErrorStatus (record_iter st ev).1.status = false) ∧
    (ev.outcome = .audio .unknownValue →
        (record_iter st ev).2.2 = true ∧
        (record_iter st ev).1.is_recording = true ∧
        (record_iter st ev).1.status = "🎙️ Didn\u0027t catch that..." ∧
        isErrorStatus (record_iter st ev).1.status = false) ∧
    (∀ m, ev.outcome = .audio (.failure m) →
        (record_iter st ev).2.2 = false ∧
        (record_iter st ev).1.status = "❌ Error: " ++ m ∧
        isErrorStatus (record_iter st ev).1.status = true ∧
        ∀ rest, (record_worker st (ev :: rest)).1.is_recording = false) := by
  obtain ⟨sreq, outc⟩ := ev
  cases hstop
  refine ⟨?_, ?_, ?_⟩
  · rintro rfl
    have hit : record_iter st ⟨false, .timeout⟩ =
        ({ st with status := "🎙️ Listening..." }, [.status "🎙️ Listening..."], true) := by
      simp [record_iter, hrec]
    rw [hit]
    refine ⟨rfl, hrec, rfl, ?_⟩
    show isErrorStatus "🎙️ Listening..." = false
    decide
  · rintro rfl
    have hit : record_iter st ⟨false, .audio .unknownValue⟩ =
        ({ st with status := "🎙️ Didn\u0027t catch that..." },
         [.status "🔄 Processing...", .status "🎙️ Didn\u0027t catch that..."], true) := by
      simp [record_iter, hrec]
    rw [hit]
    refine ⟨rfl, hrec, rfl, ?_⟩
    show isErrorStatus "🎙️ Didn\u0027t catch that..." = false
    decide
  · rintro m rfl
    have hit : record_iter st ⟨false, .audio (.failure m)⟩ =
        ({ st with status := "❌ Error: " ++ m },
         [.status "🔄 Processing...", .status ("❌ Error: " ++ m)], false) := by
      simp [record_iter, hrec]
    rw [hit]
    refine ⟨rfl, rfl, ?_, ?_⟩
    · show isErrorStatus ("❌ Error: " ++ m) = true
      simp [isErrorStatus, String.data_append, List.isPrefixOf]
    · intro rest
      simp [record_worker, hrec, hit, stop_recording]

/-- Witness for C4 at a concrete recording state: a timeout continues the
loop, an unrecognised phrase keeps `is_recording` true, and a fatal
recognition error breaks the loop. -/
theorem C4_record_worker_transient_continue_fatal_idle_witness :
    (record_iter { st0 with is_recording := true } ⟨false, .timeout⟩).2.2 = true ∧
    (record_iter { st0 with is_recording := true }
        ⟨false, .audio .unknownValue⟩).1.is_recording = true ∧
    (record_iter { st0 with is_recording := true }
        ⟨false, .audio (.failure "boom")⟩).2.2 = false :=
  ⟨((C4_record_worker_transient_continue_fatal_idle
      { st0 with is_recording := true } ⟨false, .timeout⟩ rfl rfl).1 rfl).1,
   ((C4_record_worker_transient_continue_fatal_idle
      { st0 with is_recording := true } ⟨false, .audio .unknownValue⟩ rfl rfl).2.1 rfl).2.1,
   ((C4_record_worker_transient_continue_fatal_idle
      { st0 with is_recording := true } ⟨false, .audio (.failure "boom")⟩ rfl rfl).2.2
      "boom" rfl).1⟩

/-- Counterexample to claim C5 as stated: the transcript " " is non-empty,
yet `copy_text` does not set the clipboard to it — the code tests
`text.strip()`, so a whitespace-only transcript is refused with the
"nothing to copy" status and the clipboard is left untouched. -/
theorem C5_claim_counterexample :
    (¬ ({ st0 with transcript := " " } : AppState).transcript = "") ∧
    (copy_text { st0 with transcript := " " }).clipboard ≠
      some ({ st0 with transcript := " " } : AppState).transcript ∧
    (copy_text { st0 with transcript := " " }).clipboard = st0.clipboard ∧
    (copy_text { st0 with transcript := " " }).status = "❌ No text to copy" := by
  decide

/-- Claim C5 amended: requesting copy-to-clipboard when the transcript is
empty or whitespace-only leaves the clipboard (and the transcript)
untouched and emits the "nothing to copy" status; when the transcript
contains a non-whitespace character it sets the clipboard to the exact
transcript string and emits the copied status. -/
theorem C5_copy_text_whitespace_refused_else_exact (st : AppState) :
    (pyStrip st.transcript = "" →
        (copy_text st).clipboard = st.clipboard ∧
        (copy_text st).transcript = st.transcript ∧
        (copy_text st).status = "❌ No text to copy") ∧
    (pyStrip st.transcript ≠ "" →
        (copy_text st).clipboard = some st.transcript ∧
        (copy_text st).status = "📋 Copied!") := by
  constructor <;> intro h <;> simp [copy_text, h]

/-- Witness for the amended C5 at concrete transcripts "  " and "hello". -/
theorem C5_copy_text_whitespace_refused_else_exact_witness :
    (copy_text { st0 with transcript := "  " }).clipboard = none ∧
    (copy_text { st0 with transcript := "hello" }).clipboard = some "hello" :=
  ⟨((C5_copy_text_whitespace_refused_else_exact
      { st0 with transcript := "  " }).1 (by decide)).1,
   ((C5_copy_text_whitespace_refused_else_exact
      { st0 with transcript := "hello" }).2 (by decide)).1⟩

/-- Counterexample to claim C6 as stated: with prior content C = " foo"
(non-empty) and phrase T = "bar", the transcript does not become
C ++ " " ++ T = " foo bar" — the code strips the joined string, producing
"foo bar" and losing the leading whitespace of C. -/
theorem C6_claim_counterexample :
    (¬ ({ st0 with transcript := " foo" } : AppState).transcript = "") ∧
    (add_text { st0 with transcript := " foo" } "bar").transcript ≠
      ({ st0 with transcript := " foo" } : AppState).transcript ++ " " ++ "bar" := by
  decide

/-- Claim C6 amended: if the current transcript C is empty the transcript
becomes T unchanged; if C is non-empty it becomes the single-space join
C ++ " " ++ T stripped of leading and trailing whitespace — equal to the
plain join whenever C and T carry no surrounding whitespace, as in "foo"
followed by "hello world" yielding "foo hello world". -/
theorem C6_add_text_joins_with_space_then_strips (st : AppState) (t : String) :
    (st.transcript = "" → (add_text st t).transcript = t) ∧
    (st.transcript ≠ "" →
        (add_text st t).transcript = pyStrip (st.transcript ++ " " ++ t)) ∧
    (add_text { st0 with transcript := "foo" } "hello world").transcript =
      "foo hello world" := by
  refine ⟨?_, ?_, by decide⟩ <;> intro h <;> simp [add_text, h]

/-- Witness for the amended C6 at the empty transcript and at "foo". -/
theorem C6_add_text_joins_with_space_then_strips_witness :
    (add_text st0 "hello world").transcript = "hello world" ∧
    (add_text { st0 with transcript := "foo" } "bar").transcript =
      pyStrip ("foo" ++ " " ++ "bar") :=
  ⟨(C6_add_text_joins_with_space_then_strips st0 "hello world").1 rfl,
   (C6_add_text_joins_with_space_then_strips
      { st0 with transcript := "foo" } "bar").2.1 (by decide)⟩

/-- Claim C7: a start-recording intent issued while the microphone is
unavailable is refused: an error-class status is emitted, `is_recording`
stays false, no worker thread is started, and the state is otherwise the
Idle state it was in. -/
theorem C7_start_recording_refused_without_microphone (st : AppState)
    (hmic : st.microphone = false) (hidle : st.is_recording = false) :
    (start_recording st).2 = false ∧
    (start_recording st).1.is_recording = false ∧
    (start_recording st).1.status = "❌ Microphone not available" ∧
    isErrorStatus (start_recording st).1.status = true ∧
    (start_recording st).1 = { st with status := "❌ Microphone not available" } := by
  have h : start_recording st =
      ({ st with status := "❌ Microphone not available" }, false) := by
    simp [start_recording, hmic]
  rw [h]
  refine ⟨rfl, hidle, rfl, ?_, rfl⟩
  show isErrorStatus "❌ Microphone not available" = true
  decide

/-- Witness for C7 at a concrete idle state with no microphone. -/
theorem C7_start_recording_refused_without_microphone_witness :
    (start_recording { st0 with microphone := false }).2 = false ∧
    (start_recording { st0 with microphone := false }).1.is_recording = false :=
  ⟨(C7_start_recording_refused_without_microphone
      { st0 with microphone := false } rfl rfl).1,
   (C7_start_recording_refused_without_microphone
      { st0 with microphone := false } rfl rfl).2.1⟩

/-- Claim C8: when the settings dialog is accepted with new preferences
and persisting them fails (`save_settings` returns false), a save-failure
status is surfaced and the in-memory settings still hold the newly
accepted preferences — the update is not rolled back. -/
theorem C8_settings_applied_despite_save_failure (st : AppState) (newS : Settings) :
    (show_settings st (some newS) false).settings = newS ∧
    (show_settings st (some newS) false).status = "❌ Settings save failed" ∧
    isErrorStatus (show_settings st (some newS) false).status = true := by
  refine ⟨rfl, rfl, ?_⟩
  show isErrorStatus "❌ Settings save failed" = true
  decide

/-- Claim C10: the settings dialog exposes no language control, so for
every preferences value it is opened with and every accepted outcome, the
language of the dialog result — and of the application settings after
`show_settings` processes the acceptance, whether or not the save
succeeds — equals the language the dialog was opened with. -/
theorem C10_settings_dialog_preserves_language (s : Settings) (cbAuto cbTop : Bool)
    (st : AppState) (saveOk : Bool) :
    (dialog_result s cbAuto cbTop).language = s.language ∧
    (show_settings st (some (dialog_result st.settings cbAuto cbTop)) saveOk).settings.language
      = st.settings.language := by
  refine ⟨rfl, ?_⟩
  cases saveOk
  · rfl
  · simp only [show_settings]
    split <;> first | rfl | (split <;> rfl)
